import Mathlib

/-!
Verification development for the API security tester engine
(`src/core/scanner.py`, `src/helpers.py`, `src/src/agents/coordinator_agent.py`).

The Python code is shallowly embedded: dictionaries whose relevant keys are
fixed become structures, `dict.get(k, default)` on an optional key becomes
`Option.getD`, machine time (`datetime.now()`) becomes an explicit argument,
and exceptions become `Except`.  Counters are natural numbers (the code only
ever increments them).
-/

/-- One result dictionary emitted by a vulnerability test.  `ScanSession.add_results`
reads only `result.get("status", "")` and `result.get("severity", "")`; other keys
(`test`, `url`, `description`, ...) never influence the session counters, so the
embedding keeps a representative `description` field and the two keys that matter. -/
structure Finding where
  status : Option String
  severity : Option String
  description : Option String := none
deriving Repr, DecidableEq

/-- Python `str.upper()` on the ASCII strings this program handles: uppercase
each character.  (`String.toUpper` is the same map over the characters, but its
`mapAux` loop does not reduce in the kernel, so the list form is used.) -/
def pyUpper (s : String) : String :=
  String.mk (s.data.map Char.toUpper)

/-- The uppercased status, as computed by `result.get("status", "").upper()`. -/
def Finding.statusU (f : Finding) : String :=
  pyUpper (f.status.getD "")

/-- The uppercased severity, as computed by `result.get("severity", "").upper()`. -/
def Finding.severityU (f : Finding) : String :=
  pyUpper (f.severity.getD "")

/-- The `self.summary` dictionary of a `ScanSession`: its eight keys are fixed at
construction and only ever incremented. -/
structure Summary where
  total_tests : Nat
  vulnerabilities_found : Nat
  critical : Nat
  high : Nat
  medium : Nat
  low : Nat
  info : Nat
  passed : Nat
deriving Repr, DecidableEq

/-- The summary a fresh session starts with (all counters zero). -/
def Summary.init : Summary :=
  { total_tests := 0, vulnerabilities_found := 0, critical := 0, high := 0
    medium := 0, low := 0, info := 0, passed := 0 }

/-- The body of the `for result in test_results` loop of `ScanSession.add_results`:
fold one finding into the summary counters. -/
def Summary.applyFinding (sm : Summary) (f : Finding) : Summary :=
  let status := f.statusU
  let severity := f.severityU
  if status = "VULNERABLE" then
    let sm := { sm with vulnerabilities_found := sm.vulnerabilities_found + 1 }
    if severity = "CRITICAL" then { sm with critical := sm.critical + 1 }
    else if severity = "HIGH" then { sm with high := sm.high + 1 }
    else if severity = "MEDIUM" then { sm with medium := sm.medium + 1 }
    else if severity = "LOW" then { sm with low := sm.low + 1 }
    else sm
  else if status = "INFO" then { sm with info := sm.info + 1 }
  else if status = "PASSED" then { sm with passed := sm.passed + 1 }
  else sm

/-- A `datetime.datetime` value.  The scanner only ever formats these
(`strftime("%Y%m%d_%H%M%S")`, `isoformat()`) or subtracts them, so the embedding
keeps the calendar fields; `datetime.now()` becomes an explicit argument at each
call site that uses it. -/
structure PyDateTime where
  year : Nat
  month : Nat
  day : Nat
  hour : Nat
  minute : Nat
  second : Nat
  microsecond : Nat
deriving Repr, DecidableEq

/-- Calendar validity, guaranteed by Python's `datetime` for every value it
produces (`MINYEAR = 1 ≤ year ≤ MAXYEAR = 9999`, and so on). -/
def PyDateTime.valid (t : PyDateTime) : Prop :=
  1 ≤ t.year ∧ t.year ≤ 9999 ∧ 1 ≤ t.month ∧ t.month ≤ 12 ∧ 1 ≤ t.day ∧ t.day ≤ 31 ∧
    t.hour < 24 ∧ t.minute < 60 ∧ t.second < 60 ∧ t.microsecond < 1000000

instance (t : PyDateTime) : Decidable t.valid := by
  unfold PyDateTime.valid; infer_instance

/-- The single digit character for `d % 10`. -/
def digChar (d : Nat) : Char :=
  match d % 10 with
  | 0 => '0'
  | 1 => '1'
  | 2 => '2'
  | 3 => '3'
  | 4 => '4'
  | 5 => '5'
  | 6 => '6'
  | 7 => '7'
  | 8 => '8'
  | _ => '9'

/-- The exactly-`w`-character zero-padded decimal rendering of `n` (most significant
digit first), the behaviour of `strftime`'s `%Y`/`%m`/`%d`/`%H`/`%M`/`%S` fields on
in-range values. -/
def digitsFixed : Nat → Nat → List Char
  | 0, _ => []
  | w + 1, n => digitsFixed w (n / 10) ++ [digChar n]

/-- `datetime.strftime("%Y%m%d_%H%M%S")`, the default `scan_id`.  Faithful for
calendar-valid datetimes (every field fits in its fixed width). -/
def strftimeScanId (t : PyDateTime) : String :=
  String.mk (digitsFixed 4 t.year ++ digitsFixed 2 t.month ++ digitsFixed 2 t.day ++
    ['_'] ++ digitsFixed 2 t.hour ++ digitsFixed 2 t.minute ++ digitsFixed 2 t.second)

/-- A `ScanSession` object.  `datetime.now()` at construction and at `finalize`
becomes an explicit argument. -/
structure ScanSession where
  target_url : String
  scan_id : String
  start_time : PyDateTime
  end_time : Option PyDateTime
  results : List Finding
  summary : Summary
deriving Repr, DecidableEq

/-- `ScanSession.__init__(target_url, scan_id=None)` at time `now`:
`self.scan_id = scan_id or now.strftime("%Y%m%d_%H%M%S")` (Python `or` treats
`None` and the empty string as falsy). -/
def ScanSession.create (target_url : String) (scan_id : Option String)
    (now : PyDateTime) : ScanSession :=
  { target_url := target_url
    scan_id := match scan_id with
      | some s => if s = "" then strftimeScanId now else s
      | none => strftimeScanId now
    start_time := now
    end_time := none
    results := []
    summary := Summary.init }

/-- `ScanSession.add_results(test_results)`: extend `self.results`, add the batch
length to `total_tests`, then fold each finding into the counters.  The method
consults no other session state (in particular not `end_time`). -/
def ScanSession.add_results (s : ScanSession) (test_results : List Finding) :
    ScanSession :=
  { s with
    results := s.results ++ test_results
    summary := test_results.foldl Summary.applyFinding
      { s.summary with total_tests := s.summary.total_tests + test_results.length } }

/-- `ScanSession.finalize()` at time `now`: unconditionally `self.end_time = now`.
There is no already-finalized check and no failure path. -/
def ScanSession.finalize (s : ScanSession) (now : PyDateTime) : ScanSession :=
  { s with end_time := some now }

/-- `helpers.calculate_risk_score(summary)`: weighted sum of the four severity
counters, capped at 100. -/
def calculate_risk_score (summary : Summary) : Nat :=
  min (summary.critical * 25 + summary.high * 15 + summary.medium * 8 +
    summary.low * 3) 100

/-- `helpers.get_risk_level(score)`: threshold chain 75 / 50 / 25. -/
def get_risk_level (score : Nat) : String :=
  if score ≥ 75 then "CRITICAL"
  else if score ≥ 50 then "HIGH"
  else if score ≥ 25 then "MEDIUM"
  else "LOW"

/-- Number of results whose (uppercased) status equals `st`. -/
def countStatus (results : List Finding) (st : String) : Nat :=
  results.countP (fun f => decide (f.statusU = st))

/-- Number of VULNERABLE results whose (uppercased) severity equals `sev`. -/
def countVulnSeverity (results : List Finding) (sev : String) : Nat :=
  results.countP (fun f => decide (f.statusU = "VULNERABLE" ∧ f.severityU = sev))

/-- The summary recomputed from scratch out of a result list, the projection the
spec says the cached `summary` must agree with. -/
def Summary.recompute (results : List Finding) : Summary :=
  { total_tests := results.length
    vulnerabilities_found := countStatus results "VULNERABLE"
    critical := countVulnSeverity results "CRITICAL"
    high := countVulnSeverity results "HIGH"
    medium := countVulnSeverity results "MEDIUM"
    low := countVulnSeverity results "LOW"
    info := countStatus results "INFO"
    passed := countStatus results "PASSED" }

/-- A whole run of the append operation: fold a sequence of batches into a session. -/
def runBatches (s : ScanSession) (batches : List (List Finding)) : ScanSession :=
  batches.foldl ScanSession.add_results s

lemma applyFinding_total (sm : Summary) (f : Finding) :
    (Summary.applyFinding sm f).total_tests = sm.total_tests := by
  simp only [Summary.applyFinding]
  split_ifs <;> rfl

lemma applyFinding_vuln (sm : Summary) (f : Finding) :
    (Summary.applyFinding sm f).vulnerabilities_found =
      sm.vulnerabilities_found + (if f.statusU = "VULNERABLE" then 1 else 0) := by
  simp only [Summary.applyFinding]
  split_ifs <;> rfl

lemma applyFinding_critical (sm : Summary) (f : Finding) :
    (Summary.applyFinding sm f).critical =
      sm.critical +
        (if f.statusU = "VULNERABLE" ∧ f.severityU = "CRITICAL" then 1 else 0) := by
  simp only [Summary.applyFinding]
  split_ifs <;> simp_all

lemma applyFinding_high (sm : Summary) (f : Finding) :
    (Summary.applyFinding sm f).high =
      sm.high + (if f.statusU = "VULNERABLE" ∧ f.severityU = "HIGH" then 1 else 0) := by
  simp only [Summary.applyFinding]
  split_ifs <;> simp_all

lemma applyFinding_medium (sm : Summary) (f : Finding) :
    (Summary.applyFinding sm f).medium =
      sm.medium + (if f.statusU = "VULNERABLE" ∧ f.severityU = "MEDIUM" then 1 else 0) := by
  simp only [Summary.applyFinding]
  split_ifs <;> simp_all

lemma applyFinding_low (sm : Summary) (f : Finding) :
    (Summary.applyFinding sm f).low =
      sm.low + (if f.statusU = "VULNERABLE" ∧ f.severityU = "LOW" then 1 else 0) := by
  simp only [Summary.applyFinding]
  split_ifs <;> simp_all

lemma applyFinding_info (sm : Summary) (f : Finding) :
    (Summary.applyFinding sm f).info =
      sm.info + (if f.statusU = "INFO" then 1 else 0) := by
  simp only [Summary.applyFinding]
  split_ifs <;> simp_all

lemma applyFinding_passed (sm : Summary) (f : Finding) :
    (Summary.applyFinding sm f).passed =
      sm.passed + (if f.statusU = "PASSED" then 1 else 0) := by
  simp only [Summary.applyFinding]
  split_ifs <;> simp_all

lemma countStatus_nil (st : String) : countStatus [] st = 0 := rfl

lemma countVulnSeverity_nil (sev : String) : countVulnSeverity [] sev = 0 := rfl

lemma countStatus_cons (f : Finding) (t : List Finding) (st : String) :
    countStatus (f :: t) st = countStatus t st + (if f.statusU = st then 1 else 0) := by
  simp [countStatus, List.countP_cons]

lemma countVulnSeverity_cons (f : Finding) (t : List Finding) (sev : String) :
    countVulnSeverity (f :: t) sev =
      countVulnSeverity t sev +
        (if f.statusU = "VULNERABLE" ∧ f.severityU = sev then 1 else 0) := by
  simp [countVulnSeverity, List.countP_cons]

lemma foldl_applyFinding (batch : List Finding) (sm : Summary) :
    batch.foldl Summary.applyFinding sm =
      { total_tests := sm.total_tests
        vulnerabilities_found := sm.vulnerabilities_found + countStatus batch "VULNERABLE"
        critical := sm.critical + countVulnSeverity batch "CRITICAL"
        high := sm.high + countVulnSeverity batch "HIGH"
        medium := sm.medium + countVulnSeverity batch "MEDIUM"
        low := sm.low + countVulnSeverity batch "LOW"
        info := sm.info + countStatus batch "INFO"
        passed := sm.passed + countStatus batch "PASSED" } := by
  induction batch generalizing sm with
  | nil => simp [countStatus_nil, countVulnSeverity_nil]
  | cons f t ih =>
    rw [List.foldl_cons, ih]
    simp only [applyFinding_total, applyFinding_vuln, applyFinding_critical,
      applyFinding_high, applyFinding_medium, applyFinding_low, applyFinding_info,
      applyFinding_passed, countStatus_cons, countVulnSeverity_cons, Summary.mk.injEq]
    refine ⟨trivial, ?_, ?_, ?_, ?_, ?_, ?_, ?_⟩ <;> split_ifs <;> omega

lemma countStatus_append (l₁ l₂ : List Finding) (st : String) :
    countStatus (l₁ ++ l₂) st = countStatus l₁ st + countStatus l₂ st := by
  simp [countStatus, List.countP_append]

lemma countVulnSeverity_append (l₁ l₂ : List Finding) (sev : String) :
    countVulnSeverity (l₁ ++ l₂) sev =
      countVulnSeverity l₁ sev + countVulnSeverity l₂ sev := by
  simp [countVulnSeverity, List.countP_append]

lemma recompute_append (l₁ l₂ : List Finding) :
    Summary.recompute (l₁ ++ l₂) =
      { total_tests := (Summary.recompute l₁).total_tests + l₂.length
        vulnerabilities_found := (Summary.recompute l₁).vulnerabilities_found +
          countStatus l₂ "VULNERABLE"
        critical := (Summary.recompute l₁).critical + countVulnSeverity l₂ "CRITICAL"
        high := (Summary.recompute l₁).high + countVulnSeverity l₂ "HIGH"
        medium := (Summary.recompute l₁).medium + countVulnSeverity l₂ "MEDIUM"
        low := (Summary.recompute l₁).low + countVulnSeverity l₂ "LOW"
        info := (Summary.recompute l₁).info + countStatus l₂ "INFO"
        passed := (Summary.recompute l₁).passed + countStatus l₂ "PASSED" } := by
  simp [Summary.recompute, countStatus_append, countVulnSeverity_append]

/-- The aggregation invariant is preserved by one `add_results` call. -/
lemma add_results_preserves_recompute (s : ScanSession) (batch : List Finding)
    (h : s.summary = Summary.recompute s.results) :
    (s.add_results batch).summary = Summary.recompute (s.add_results batch).results := by
  simp only [ScanSession.add_results, foldl_applyFinding, recompute_append, h]

/-- The aggregation invariant is preserved by any sequence of `add_results` calls. -/
lemma runBatches_preserves_recompute (batches : List (List Finding)) (s : ScanSession)
    (h : s.summary = Summary.recompute s.results) :
    (runBatches s batches).summary = Summary.recompute (runBatches s batches).results := by
  induction batches generalizing s with
  | nil => exact h
  | cons b t ih =>
    exact ih (s.add_results b) (add_results_preserves_recompute s b h)

lemma create_recompute (target : String) (sid : Option String) (now : PyDateTime) :
    (ScanSession.create target sid now).summary =
      Summary.recompute (ScanSession.create target sid now).results := rfl

/-- C1: after every sequence of `add_results` calls starting from a fresh session,
`summary.total_tests` equals the length of `results`, and every per-status and
per-severity counter in `summary` equals the count of matching findings in
`results` (status matched on the uppercased `status` key; severities counted
among VULNERABLE findings on the uppercased `severity` key), so the summary is
recomputable from `results` alone. -/
theorem C1_summary_recomputable_from_results (target : String) (sid : Option String)
    (now : PyDateTime) (batches : List (List Finding)) :
    (runBatches (ScanSession.create target sid now) batches).summary.total_tests =
        (runBatches (ScanSession.create target sid now) batches).results.length ∧
      (runBatches (ScanSession.create target sid now) batches).summary.vulnerabilities_found =
        countStatus (runBatches (ScanSession.create target sid now) batches).results
          "VULNERABLE" ∧
      (runBatches (ScanSession.create target sid now) batches).summary.critical =
        countVulnSeverity (runBatches (ScanSession.create target sid now) batches).results
          "CRITICAL" ∧
      (runBatches (ScanSession.create target sid now) batches).summary.high =
        countVulnSeverity (runBatches (ScanSession.create target sid now) batches).results
          "HIGH" ∧
      (runBatches (ScanSession.create target sid now) batches).summary.medium =
        countVulnSeverity (runBatches (ScanSession.create target sid now) batches).results
          "MEDIUM" ∧
      (runBatches (ScanSession.create target sid now) batches).summary.low =
        countVulnSeverity (runBatches (ScanSession.create target sid now) batches).results
          "LOW" ∧
      (runBatches (ScanSession.create target sid now) batches).summary.info =
        countStatus (runBatches (ScanSession.create target sid now) batches).results "INFO" ∧
      (runBatches (ScanSession.create target sid now) batches).summary.passed =
        countStatus (runBatches (ScanSession.create target sid now) batches).results
          "PASSED" := by
  have h := runBatches_preserves_recompute batches (ScanSession.create target sid now)
    (create_recompute target sid now)
  rw [h]
  exact ⟨rfl, rfl, rfl, rfl, rfl, rfl, rfl, rfl⟩

/-- C2: the risk score is the weighted sum critical*25 + high*15 + medium*8 + low*3
capped at 100 (info/passed never enter it), the level is CRITICAL iff the score is
at least 75, HIGH iff it is in [50, 75), MEDIUM iff it is in [25, 50) and LOW iff it
is below 25; the summary with one critical and one high scores 40 with level
MEDIUM, and the summary with three critical scores 75 with level CRITICAL. -/
theorem C2_risk_score_weighted_and_levels :
    (∀ sm : Summary, calculate_risk_score sm =
        min (sm.critical * 25 + sm.high * 15 + sm.medium * 8 + sm.low * 3) 100) ∧
      (∀ sm sm' : Summary, sm.critical = sm'.critical → sm.high = sm'.high →
        sm.medium = sm'.medium → sm.low = sm'.low →
        calculate_risk_score sm = calculate_risk_score sm') ∧
      (∀ score : Nat,
        (get_risk_level score = "CRITICAL" ↔ 75 ≤ score) ∧
          (get_risk_level score = "HIGH" ↔ 50 ≤ score ∧ score < 75) ∧
          (get_risk_level score = "MEDIUM" ↔ 25 ≤ score ∧ score < 50) ∧
          (get_risk_level score = "LOW" ↔ score < 25)) ∧
      calculate_risk_score { Summary.init with critical := 1, high := 1 } = 40 ∧
      get_risk_level (calculate_risk_score { Summary.init with critical := 1, high := 1 }) =
        "MEDIUM" ∧
      calculate_risk_score { Summary.init with critical := 3 } = 75 ∧
      get_risk_level (calculate_risk_score { Summary.init with critical := 3 }) =
        "CRITICAL" := by
  refine ⟨fun sm => rfl, ?_, ?_, by decide, by decide, by decide, by decide⟩
  · intro sm sm' hc hh hm hl
    simp [calculate_risk_score, hc, hh, hm, hl]
  · intro score
    unfold get_risk_level
    split_ifs with h1 h2 h3 <;>
      refine ⟨?_, ?_, ?_, ?_⟩ <;> simp <;> omega

/-- C7: the risk score is monotonic non-decreasing in each of the critical, high,
medium and low counters (stated additively: adding `d` to any one counter never
decreases the score), and every score is at most 100. -/
theorem C7_risk_score_monotone_and_capped :
    (∀ (sm : Summary) (d : Nat),
        calculate_risk_score sm ≤
          calculate_risk_score { sm with critical := sm.critical + d }) ∧
      (∀ (sm : Summary) (d : Nat),
        calculate_risk_score sm ≤ calculate_risk_score { sm with high := sm.high + d }) ∧
      (∀ (sm : Summary) (d : Nat),
        calculate_risk_score sm ≤
          calculate_risk_score { sm with medium := sm.medium + d }) ∧
      (∀ (sm : Summary) (d : Nat),
        calculate_risk_score sm ≤ calculate_risk_score { sm with low := sm.low + d }) ∧
      (∀ sm : Summary, calculate_risk_score sm ≤ 100) := by
  refine ⟨?_, ?_, ?_, ?_, fun sm => min_le_right _ _⟩ <;>
    · intro sm d
      apply min_le_min _ le_rfl
      simp only
      nlinarith [sm.critical, sm.high]

lemma statusCounts_le_length (l : List Finding) :
    countStatus l "VULNERABLE" + countStatus l "INFO" + countStatus l "PASSED" ≤
      l.length := by
  induction l with
  | nil => simp [countStatus_nil]
  | cons f t ih =>
    simp only [countStatus_cons, List.length_cons]
    have hf : (if f.statusU = "VULNERABLE" then 1 else 0) +
        (if f.statusU = "INFO" then 1 else 0) +
        (if f.statusU = "PASSED" then 1 else 0) ≤ 1 := by
      split_ifs <;> simp_all
    omega

lemma sevCounts_le_vuln (l : List Finding) :
    countVulnSeverity l "CRITICAL" + countVulnSeverity l "HIGH" +
        countVulnSeverity l "MEDIUM" + countVulnSeverity l "LOW" ≤
      countStatus l "VULNERABLE" := by
  induction l with
  | nil => simp [countStatus_nil, countVulnSeverity_nil]
  | cons f t ih =>
    simp only [countStatus_cons, countVulnSeverity_cons]
    have hf : (if f.statusU = "VULNERABLE" ∧ f.severityU = "CRITICAL" then 1 else 0) +
        (if f.statusU = "VULNERABLE" ∧ f.severityU = "HIGH" then 1 else 0) +
        (if f.statusU = "VULNERABLE" ∧ f.severityU = "MEDIUM" then 1 else 0) +
        (if f.statusU = "VULNERABLE" ∧ f.severityU = "LOW" then 1 else 0) ≤
          (if f.statusU = "VULNERABLE" then 1 else 0) := by
      split_ifs <;> simp_all
    omega

/-- A sample creation instant, used for concrete evaluations. -/
def sampleTime : PyDateTime :=
  { year := 2024, month := 5, day := 17, hour := 12, minute := 30, second := 45
    microsecond := 0 }

/-- A result whose status falls outside VULNERABLE / INFO / PASSED. -/
def errFinding : Finding :=
  { status := some "ERROR", severity := none }

/-- A VULNERABLE result whose severity is none of the four recognized levels. -/
def oddSeverityFinding : Finding :=
  { status := some "VULNERABLE", severity := some "EXTREME" }

/-- C10: after every sequence of `add_results` calls, `total_tests` is at least
`vulnerabilities_found + info + passed` and `vulnerabilities_found` is at least
`critical + high + medium + low`; a finding whose uppercased status is none of
VULNERABLE, INFO, PASSED increments only `total_tests`, and a VULNERABLE finding
with an unrecognized severity increments `vulnerabilities_found` (and
`total_tests`) but no per-severity counter; a concrete session shows both
inequalities strict. -/
theorem C10_counter_slack :
    (∀ (target : String) (sid : Option String) (now : PyDateTime)
        (batches : List (List Finding)),
        (runBatches (ScanSession.create target sid now) batches).summary.vulnerabilities_found +
              (runBatches (ScanSession.create target sid now) batches).summary.info +
              (runBatches (ScanSession.create target sid now) batches).summary.passed ≤
            (runBatches (ScanSession.create target sid now) batches).summary.total_tests ∧
          (runBatches (ScanSession.create target sid now) batches).summary.critical +
              (runBatches (ScanSession.create target sid now) batches).summary.high +
              (runBatches (ScanSession.create target sid now) batches).summary.medium +
              (runBatches (ScanSession.create target sid now) batches).summary.low ≤
            (runBatches (ScanSession.create target sid now) batches).summary.vulnerabilities_found) ∧
      (∀ (s : ScanSession) (f : Finding), f.statusU ≠ "VULNERABLE" →
        f.statusU ≠ "INFO" → f.statusU ≠ "PASSED" →
        (s.add_results [f]).summary =
          { s.summary with total_tests := s.summary.total_tests + 1 }) ∧
      (∀ (s : ScanSession) (f : Finding), f.statusU = "VULNERABLE" →
        f.severityU ≠ "CRITICAL" → f.severityU ≠ "HIGH" → f.severityU ≠ "MEDIUM" →
        f.severityU ≠ "LOW" →
        (s.add_results [f]).summary =
          { s.summary with total_tests := s.summary.total_tests + 1
                           vulnerabilities_found := s.summary.vulnerabilities_found + 1 }) ∧
      ((runBatches (ScanSession.create "http://x" none sampleTime)
          [[errFinding, oddSeverityFinding]]).summary.vulnerabilities_found +
          (runBatches (ScanSession.create "http://x" none sampleTime)
            [[errFinding, oddSeverityFinding]]).summary.info +
          (runBatches (ScanSession.create "http://x" none sampleTime)
            [[errFinding, oddSeverityFinding]]).summary.passed <
        (runBatches (ScanSession.create "http://x" none sampleTime)
          [[errFinding, oddSeverityFinding]]).summary.total_tests) ∧
      ((runBatches (ScanSession.create "http://x" none sampleTime)
          [[errFinding, oddSeverityFinding]]).summary.critical +
          (runBatches (ScanSession.create "http://x" none sampleTime)
            [[errFinding, oddSeverityFinding]]).summary.high +
          (runBatches (ScanSession.create "http://x" none sampleTime)
            [[errFinding, oddSeverityFinding]]).summary.medium +
          (runBatches (ScanSession.create "http://x" none sampleTime)
            [[errFinding, oddSeverityFinding]]).summary.low <
        (runBatches (ScanSession.create "http://x" none sampleTime)
          [[errFinding, oddSeverityFinding]]).summary.vulnerabilities_found) := by
  refine ⟨?_, ?_, ?_, by decide, by decide⟩
  · intro target sid now batches
    have h := runBatches_preserves_recompute batches (ScanSession.create target sid now)
      (create_recompute target sid now)
    rw [h]
    exact ⟨statusCounts_le_length _, sevCounts_le_vuln _⟩
  · intro s f h1 h2 h3
    simp only [ScanSession.add_results, List.foldl_cons, List.foldl_nil,
      List.length_cons, List.length_nil, Summary.applyFinding]
    split_ifs <;> simp_all
  · intro s f h1 h2 h3 h4 h5
    simp only [ScanSession.add_results, List.foldl_cons, List.foldl_nil,
      List.length_cons, List.length_nil, Summary.applyFinding]
    split_ifs <;> simp_all

/-- Witness for C10: the increment facts instantiated at a concrete session with
an ERROR finding and a VULNERABLE finding of unrecognized severity. -/
theorem C10_counter_slack_witness :
    ((ScanSession.create "http://x" none sampleTime).add_results [errFinding]).summary =
        { (ScanSession.create "http://x" none sampleTime).summary with
            total_tests :=
              (ScanSession.create "http://x" none sampleTime).summary.total_tests + 1 } ∧
      ((ScanSession.create "http://x" none sampleTime).add_results
            [oddSeverityFinding]).summary =
        { (ScanSession.create "http://x" none sampleTime).summary with
            total_tests :=
              (ScanSession.create "http://x" none sampleTime).summary.total_tests + 1
            vulnerabilities_found :=
              (ScanSession.create "http://x" none
                sampleTime).summary.vulnerabilities_found + 1 } :=
  ⟨C10_counter_slack.2.1 (ScanSession.create "http://x" none sampleTime) errFinding
      (by decide) (by decide) (by decide),
    C10_counter_slack.2.2.1 (ScanSession.create "http://x" none sampleTime)
      oddSeverityFinding (by decide) (by decide) (by decide) (by decide) (by decide)⟩

/-- A second sample instant, one second after `sampleTime`. -/
def sampleTime2 : PyDateTime :=
  { year := 2024, month := 5, day := 17, hour := 12, minute := 30, second := 46
    microsecond := 0 }

/-- Counterexample to C4: `finalize` has no already-finalized check and no failure
path; a second call on an already finalized session succeeds and overwrites
`end_time`, so the `end_time` set by the first call is not preserved. -/
theorem C4_counterexample_second_finalize_overwrites :
    (((ScanSession.create "http://x" none sampleTime).finalize sampleTime).finalize
          sampleTime2).end_time = some sampleTime2 ∧
      ((ScanSession.create "http://x" none sampleTime).finalize sampleTime).end_time =
        some sampleTime ∧
      some sampleTime2 ≠ (some sampleTime : Option PyDateTime) := by
  refine ⟨rfl, rfl, by decide⟩

/-- C4 amended: `finalize()` never fails; every call, including a repeated one,
unconditionally sets `end_time` to the current time and changes nothing else, so
a second call replaces the first `end_time` instead of preserving it or raising
an AlreadyFinalized condition. -/
theorem C4_finalize_always_overwrites (s : ScanSession) (t₁ t₂ : PyDateTime) :
    (s.finalize t₁).end_time = some t₁ ∧
      ((s.finalize t₁).finalize t₂).end_time = some t₂ ∧
      (s.finalize t₁).results = s.results ∧
      (s.finalize t₁).summary = s.summary ∧
      (s.finalize t₁).scan_id = s.scan_id ∧
      (s.finalize t₁).target_url = s.target_url ∧
      (s.finalize t₁).start_time = s.start_time :=
  ⟨rfl, rfl, rfl, rfl, rfl, rfl, rfl⟩

/-- Counterexample to C5: `add_results` on a finalized session is not rejected; it
silently succeeds and mutates both `results` and `summary`. -/
theorem C5_counterexample_append_after_finalize_mutates :
    (((ScanSession.create "http://x" none sampleTime).finalize sampleTime2).add_results
            [errFinding]).results = [errFinding] ∧
      (((ScanSession.create "http://x" none sampleTime).finalize sampleTime2).add_results
            [errFinding]).summary.total_tests = 1 ∧
      ((ScanSession.create "http://x" none sampleTime).finalize sampleTime2).results =
        [] ∧
      ((ScanSession.create "http://x" none
          sampleTime).finalize sampleTime2).summary.total_tests = 0 := by
  refine ⟨rfl, by decide, rfl, rfl⟩

/-- C5 amended: `add_results` never consults the finalized state: after
`finalize`, an append silently succeeds and behaves exactly as before
finalization (results extended by the batch, summary folded the same way,
`end_time` left as set), so the FINALIZED state does not block the transition. -/
theorem C5_append_after_finalize_succeeds (s : ScanSession) (now : PyDateTime)
    (batch : List Finding) :
    (s.finalize now).add_results batch = (s.add_results batch).finalize now ∧
      ((s.finalize now).add_results batch).results = s.results ++ batch ∧
      ((s.finalize now).add_results batch).end_time = some now :=
  ⟨rfl, rfl, rfl⟩

/-- One instantiated test in the probe loop of `SecurityScanner.run_scan`.  The
network interaction of `test.run(target_url, headers=headers)` is abstracted into
a predetermined outcome for this scan: either the returned result list, or the
message of the exception it raises. -/
structure ProbeRun where
  name : String
  outcome : Except String (List Finding)
deriving Repr

/-- The `try/except` body of the probe loop in `run_scan` for one test: on normal
return the results are added to the session; on an exception the error is printed
to the console and nothing is recorded in the session. -/
def runOneTest (s : ScanSession) (p : ProbeRun) : ScanSession :=
  match p.outcome with
  | Except.ok results => s.add_results results
  | Except.error _ => s

/-- The probe loop of `run_scan`, also returning the order in which the tests were
started (the order of `progress.add_task("Running: {test.name}")` calls), as the
observation of execution order. -/
def runScanTrace (s : ScanSession) : List ProbeRun → ScanSession × List String
  | [] => (s, [])
  | p :: ts =>
    let step := runScanTrace (runOneTest s p) ts
    (step.1, p.name :: step.2)

/-- The advisory scan plan produced by `CoordinatorAgent.create_scan_plan`: a
priority ordering over test names (the `recommended_order` key) plus free-text
fields that never influence control flow. -/
structure ScanPlan where
  recommended_order : List String
deriving Repr, DecidableEq

/-- The configuration mapping consumed by `SecurityScanner.run_scan`.  A config
dictionary may carry additional keys (for example the `scan_plan` produced by
`CoordinatorAgent.plan_scan`); `run_scan` reads only `target_url`, `headers` and
`selected_tests`, so any plan entry is representable but never read. -/
structure ScanConfig where
  target_url : String
  headers : List (String × String) := []
  selected_tests : Option (List ProbeRun) := none
  scan_plan : Option ScanPlan := none

/-- `SecurityScanner.run_scan(config)`: create a session at `now`, run each
selected test (the whole registry `self.test_classes` when the config has no
`selected_tests` entry) through the try/except loop, finalize at `endT`.  Returns
the session together with the observed execution order. -/
def run_scan (registry : List ProbeRun) (config : ScanConfig)
    (now endT : PyDateTime) : ScanSession × List String :=
  let outcome := runScanTrace (ScanSession.create config.target_url none now)
    (config.selected_tests.getD registry)
  (outcome.1.finalize endT, outcome.2)

/-- The results a probe contributes: its returned list on success, nothing on an
exception. -/
def okResults (p : ProbeRun) : Option (List Finding) :=
  match p.outcome with
  | Except.ok results => some results
  | Except.error _ => none

/-- A failing probe, used in concrete evaluations. -/
def failingProbe : ProbeRun :=
  { name := "API1", outcome := Except.error "boom" }

/-- A probe returning one PASSED result, used in concrete evaluations. -/
def passingProbe : ProbeRun :=
  { name := "API2", outcome := Except.ok [{ status := some "PASSED", severity := none }] }

lemma add_results_results (s : ScanSession) (batch : List Finding) :
    (s.add_results batch).results = s.results ++ batch := rfl

lemma runScanTrace_results (tests : List ProbeRun) (s : ScanSession) :
    (runScanTrace s tests).1.results = s.results ++ (tests.filterMap okResults).flatten := by
  induction tests generalizing s with
  | nil => simp [runScanTrace]
  | cons p ts ih =>
    cases h : p.outcome with
    | ok rs =>
      simp [runScanTrace, ih, runOneTest, okResults, h, add_results_results,
        List.filterMap_cons, List.append_assoc]
    | error e =>
      simp [runScanTrace, ih, runOneTest, okResults, h, List.filterMap_cons]

lemma runScanTrace_order (tests : List ProbeRun) (s : ScanSession) :
    (runScanTrace s tests).2 = tests.map ProbeRun.name := by
  induction tests generalizing s with
  | nil => rfl
  | cons p ts ih => simp [runScanTrace, ih]

/-- The configuration used in the C3 counterexample: a single selected probe whose
execution raises. -/
def cfgFailingOnly : ScanConfig :=
  { target_url := "http://x", selected_tests := some [failingProbe] }

/-- Counterexample to C3: when a probe raises, the `except` branch of `run_scan`
only prints the error; no Finding at all is recorded for it, so the session holds
zero ERROR findings instead of exactly one. -/
theorem C3_counterexample_no_error_finding :
    (run_scan [] cfgFailingOnly sampleTime sampleTime2).1.results = [] ∧
      countStatus (run_scan [] cfgFailingOnly sampleTime sampleTime2).1.results
          "ERROR" = 0 ∧
      (run_scan [] cfgFailingOnly sampleTime sampleTime2).1.summary.total_tests = 0 := by
  refine ⟨rfl, rfl, rfl⟩

/-- C3 amended: a probe whose execution raises is caught by the loop's
`except` branch and contributes no finding whatsoever (the session is left
exactly as it was), while every successfully returning probe — before or after
the failure — still has its results recorded: the final result list is the
initial one followed by the concatenation of exactly the successful probes'
results, in execution order. -/
theorem C3_failure_contained_but_unrecorded (s : ScanSession) (tests : List ProbeRun) :
    (runScanTrace s tests).1.results =
        s.results ++ (tests.filterMap okResults).flatten ∧
      (∀ nm e : String, runOneTest s { name := nm, outcome := Except.error e } = s) :=
  ⟨runScanTrace_results tests s, fun _ _ => rfl⟩

/-- Probes for the C8 counterexample; their outcomes are irrelevant to ordering. -/
def probeAPI1 : ProbeRun := { name := "API1", outcome := Except.ok [] }

/-- Second probe for the C8 counterexample. -/
def probeAPI2 : ProbeRun := { name := "API2", outcome := Except.ok [] }

/-- Third probe for the C8 counterexample. -/
def probeAPI5 : ProbeRun := { name := "API5", outcome := Except.ok [] }

/-- A configuration selecting API1, API2, API5 whose mapping also carries a scan
plan prioritizing API2 then API5 (as `CoordinatorAgent` would produce). -/
def cfgWithPlan : ScanConfig :=
  { target_url := "http://x"
    selected_tests := some [probeAPI1, probeAPI2, probeAPI5]
    scan_plan := some { recommended_order := ["API2", "API5"] } }

/-- Counterexample to C8: `run_scan` reads only `target_url`, `headers` and
`selected_tests` from its config, so the plan prioritizing API2 and API5 is
ignored and API1 runs first — not after API2 and API5 as the claim requires. -/
theorem C8_counterexample_plan_not_consulted :
    (run_scan [probeAPI1, probeAPI2, probeAPI5] cfgWithPlan sampleTime
          sampleTime2).2 = ["API1", "API2", "API5"] ∧
      cfgWithPlan.scan_plan = some { recommended_order := ["API2", "API5"] } ∧
      ¬ ((run_scan [probeAPI1, probeAPI2, probeAPI5] cfgWithPlan sampleTime
            sampleTime2).2.indexOf "API2" <
          (run_scan [probeAPI1, probeAPI2, probeAPI5] cfgWithPlan sampleTime
            sampleTime2).2.indexOf "API1") := by
  refine ⟨rfl, rfl, by decide⟩

/-- C8 amended: the execution order of `run_scan` is exactly the caller's
selection order (the registry order when the config carries no selection); a
`scan_plan` entry in the configuration is never read, so changing or removing it
never changes the execution order — no probe is reordered, added or removed by a
plan. -/
theorem C8_order_is_selection_order_plan_ignored (registry : List ProbeRun)
    (config : ScanConfig) (now endT : PyDateTime) :
    (run_scan registry config now endT).2 =
        (config.selected_tests.getD registry).map ProbeRun.name ∧
      ∀ plan : Option ScanPlan,
        (run_scan registry { config with scan_plan := plan } now endT).2 =
          (run_scan registry config now endT).2 :=
  ⟨runScanTrace_order _ _, fun _ => rfl⟩

/-- Gregorian leap year test, as in CPython's `datetime`. -/
def isLeap (y : Nat) : Bool :=
  y % 4 = 0 && (y % 100 ≠ 0 || y % 400 = 0)

/-- Days in the months strictly before month `m` of year `y`. -/
def daysBeforeMonth (m y : Nat) : Nat :=
  [0, 31, 59, 90, 120, 151, 181, 212, 243, 273, 304, 334].getD (m - 1) 0 +
    (if 2 < m && isLeap y then 1 else 0)

/-- `datetime.toordinal()`: day number in the proleptic Gregorian calendar. -/
def toordinal (t : PyDateTime) : Nat :=
  365 * (t.year - 1) + (t.year - 1) / 4 - (t.year - 1) / 100 + (t.year - 1) / 400 +
    daysBeforeMonth t.month t.year + t.day

/-- A datetime as a total count of microseconds, the quantity underlying
datetime subtraction. -/
def totalMicros (t : PyDateTime) : Int :=
  ((((toordinal t : Int) * 24 + t.hour) * 60 + t.minute) * 60 + t.second) * 1000000 +
    t.microsecond

/-- `f"{total_seconds:.2f}s"`: seconds with two decimals from a microsecond count
(the hundredth is rounded half-up; CPython's float formatting may differ on exact
half-way ties, which no theorem here depends on). -/
def formatSeconds2 (micros : Int) : String :=
  let hundredths := (micros.natAbs + 5000) / 10000
  (if micros < 0 then "-" else "") ++ toString (hundredths / 100) ++ "." ++
    String.mk (digitsFixed 2 (hundredths % 100)) ++ "s"

/-- `datetime.isoformat()`: `YYYY-MM-DDTHH:MM:SS`, with `.ffffff` appended only
when the microsecond field is nonzero. -/
def isoformat (t : PyDateTime) : String :=
  String.mk (digitsFixed 4 t.year ++ '-' :: digitsFixed 2 t.month ++ '-' ::
    digitsFixed 2 t.day ++ 'T' :: digitsFixed 2 t.hour ++ ':' ::
    digitsFixed 2 t.minute ++ ':' :: digitsFixed 2 t.second ++
    (if t.microsecond = 0 then [] else '.' :: digitsFixed 6 t.microsecond))

/-!
Reference-semantics model for `to_dict` (claim C6).  In Python, `self.summary` is
a dict object and `self.results` a list object; `to_dict` builds a new dict whose
`"summary"` and `"results"` entries are references to those same objects, while
the other entries are freshly created strings.  `add_results` mutates the two
objects in place.  The heap below makes those references explicit: a session
object holds addresses into the heap, and `add_results` updates the heap cells.
-/

/-- The mutable store: summary dicts and result lists, addressed by index. -/
structure Heap where
  summaries : List Summary
  resultLists : List (List Finding)
deriving Repr, DecidableEq

/-- A `ScanSession` object under reference semantics: attribute cells holding
immutable values directly, and addresses for the two mutable collections. -/
structure SessionObj where
  target_url : String
  scan_id : String
  start_time : PyDateTime
  end_time : Option PyDateTime
  summaryRef : Nat
  resultsRef : Nat
deriving Repr, DecidableEq

/-- `ScanSession.__init__` under reference semantics: allocate a fresh summary
dict and a fresh results list on the heap. -/
def newSessionObj (target_url : String) (scan_id : Option String)
    (now : PyDateTime) (h : Heap) : SessionObj × Heap :=
  ({ target_url := target_url
     scan_id := match scan_id with
       | some s => if s = "" then strftimeScanId now else s
       | none => strftimeScanId now
     start_time := now
     end_time := none
     summaryRef := h.summaries.length
     resultsRef := h.resultLists.length },
   { summaries := h.summaries ++ [Summary.init]
     resultLists := h.resultLists ++ [[]] })

/-- The live summary of a session, read through its reference. -/
def SessionObj.summaryVal (s : SessionObj) (h : Heap) : Summary :=
  h.summaries.getD s.summaryRef Summary.init

/-- The live result list of a session, read through its reference. -/
def SessionObj.resultsVal (s : SessionObj) (h : Heap) : List Finding :=
  h.resultLists.getD s.resultsRef []

/-- `add_results` under reference semantics: `self.results.extend(...)` and the
counter updates mutate the heap cells in place; the session object itself is
unchanged. -/
def SessionObj.add_results (s : SessionObj) (h : Heap) (batch : List Finding) :
    Heap :=
  { summaries := h.summaries.set s.summaryRef
      (batch.foldl Summary.applyFinding
        { s.summaryVal h with
            total_tests := (s.summaryVal h).total_tests + batch.length })
    resultLists := h.resultLists.set s.resultsRef (s.resultsVal h ++ batch) }

/-- `finalize` under reference semantics: reassigns the `end_time` attribute of
the session object; the heap (and hence anything aliasing it) is untouched. -/
def SessionObj.finalize (s : SessionObj) (now : PyDateTime) : SessionObj :=
  { s with end_time := some now }

/-- `get_duration` of a session object. -/
def SessionObj.get_duration (s : SessionObj) : String :=
  match s.end_time with
  | some e => formatSeconds2 (totalMicros e - totalMicros s.start_time)
  | none => "In progress"

/-- The dictionary returned by `ScanSession.to_dict`: fresh strings for the
scalar entries, but the `"summary"` and `"results"` entries are the references
to the session's own objects (`"summary": self.summary`, `"results":
self.results`). -/
structure SnapDict where
  scan_id : String
  target_url : String
  start_time : String
  end_time : Option String
  duration : String
  summaryRef : Nat
  resultsRef : Nat
deriving Repr, DecidableEq

/-- `ScanSession.to_dict()` under reference semantics. -/
def SessionObj.to_dict (s : SessionObj) : SnapDict :=
  { scan_id := s.scan_id
    target_url := s.target_url
    start_time := isoformat s.start_time
    end_time := s.end_time.map isoformat
    duration := s.get_duration
    summaryRef := s.summaryRef
    resultsRef := s.resultsRef }

/-- Reading the snapshot's `"summary"` entry in a given heap state. -/
def SnapDict.summaryVal (d : SnapDict) (h : Heap) : Summary :=
  h.summaries.getD d.summaryRef Summary.init

/-- Reading the snapshot's `"results"` entry in a given heap state. -/
def SnapDict.resultsVal (d : SnapDict) (h : Heap) : List Finding :=
  h.resultLists.getD d.resultsRef []

/-- Demo allocation for the C6 counterexample: a fresh session in an empty heap. -/
def demoAlloc : SessionObj × Heap :=
  newSessionObj "http://x" none sampleTime { summaries := [], resultLists := [] }

/-- The snapshot issued before any mutation. -/
def demoSnap : SnapDict := demoAlloc.1.to_dict

/-- The heap after a later `add_results` call on the live session. -/
def demoHeapAfter : Heap := demoAlloc.1.add_results demoAlloc.2 [errFinding]

/-- Counterexample to C6: the dict issued by `to_dict` shares the live session's
summary dict and results list, so a later `add_results` call does change the
summary and results seen through the already-issued snapshot. -/
theorem C6_counterexample_snapshot_mutates :
    demoSnap.summaryVal demoHeapAfter ≠ demoSnap.summaryVal demoAlloc.2 ∧
      demoSnap.resultsVal demoHeapAfter ≠ demoSnap.resultsVal demoAlloc.2 ∧
      (demoSnap.summaryVal demoAlloc.2).total_tests = 0 ∧
      (demoSnap.summaryVal demoHeapAfter).total_tests = 1 ∧
      demoSnap.resultsVal demoAlloc.2 = [] ∧
      demoSnap.resultsVal demoHeapAfter = [errFinding] := by
  refine ⟨by decide, by decide, rfl, by decide, rfl, by decide⟩

/-- C6 amended: `to_dict` copies the scalar entries (fresh strings for
`scan_id`, `target_url`, times and duration) but stores references to the live
`summary` dict and `results` list, so the snapshot is not an immutable copy:
reading its summary or results in any later state yields the live session's
current values, and a later nonempty `add_results` call does change the summary
and results seen through the already-issued snapshot (while `finalize`, which
only reassigns the session attribute `end_time`, leaves the heap and hence every
snapshot read untouched). -/
theorem C6_snapshot_shares_live_objects (s : SessionObj) (h : Heap)
    (batch : List Finding) (hs : s.summaryRef < h.summaries.length)
    (hr : s.resultsRef < h.resultLists.length) (hb : batch ≠ []) :
    (∀ h' : Heap, s.to_dict.summaryVal h' = s.summaryVal h' ∧
        s.to_dict.resultsVal h' = s.resultsVal h') ∧
      s.to_dict.summaryVal (s.add_results h batch) ≠ s.to_dict.summaryVal h ∧
      s.to_dict.resultsVal (s.add_results h batch) =
        s.to_dict.resultsVal h ++ batch ∧
      (∀ now : PyDateTime, (s.finalize now).summaryVal h = s.summaryVal h) := by
  have hlen : 0 < batch.length := List.length_pos.mpr hb
  refine ⟨fun h' => ⟨rfl, rfl⟩, ?_, ?_, fun now => rfl⟩
  · have e1 : s.to_dict.summaryVal (s.add_results h batch) =
        batch.foldl Summary.applyFinding
          { s.summaryVal h with
              total_tests := (s.summaryVal h).total_tests + batch.length } := by
      simp [SnapDict.summaryVal, SessionObj.to_dict, SessionObj.add_results,
        List.getD, List.getElem?_set, hs]
    have e2 : s.to_dict.summaryVal h = s.summaryVal h := rfl
    rw [e1, e2, foldl_applyFinding]
    intro hEq
    have hTot := congrArg Summary.total_tests hEq
    simp only at hTot
    omega
  · simp [SnapDict.resultsVal, SessionObj.to_dict, SessionObj.add_results,
      SessionObj.resultsVal, List.getD, List.getElem?_set, hr]

/-- Witness for the amended C6 theorem at the demo allocation. -/
theorem C6_snapshot_shares_live_objects_witness :
    (∀ h' : Heap, demoAlloc.1.to_dict.summaryVal h' = demoAlloc.1.summaryVal h' ∧
        demoAlloc.1.to_dict.resultsVal h' = demoAlloc.1.resultsVal h') ∧
      demoAlloc.1.to_dict.summaryVal (demoAlloc.1.add_results demoAlloc.2 [errFinding]) ≠
        demoAlloc.1.to_dict.summaryVal demoAlloc.2 ∧
      demoAlloc.1.to_dict.resultsVal (demoAlloc.1.add_results demoAlloc.2 [errFinding]) =
        demoAlloc.1.to_dict.resultsVal demoAlloc.2 ++ [errFinding] ∧
      (∀ now : PyDateTime,
        (demoAlloc.1.finalize now).summaryVal demoAlloc.2 =
          demoAlloc.1.summaryVal demoAlloc.2) :=
  C6_snapshot_shares_live_objects demoAlloc.1 demoAlloc.2 [errFinding]
    (by decide) (by decide) (by decide)

/-- Numeric value of a digit character. -/
def digitVal (c : Char) : Nat := c.toNat - 48

/-- Decimal value of a most-significant-first digit string. -/
def numVal (l : List Char) : Nat :=
  l.foldl (fun a c => a * 10 + digitVal c) 0

lemma digitsFixed_length (w n : Nat) : (digitsFixed w n).length = w := by
  induction w generalizing n with
  | zero => rfl
  | succ w ih => simp [digitsFixed, ih]

lemma digChar_val (n : Nat) : digitVal (digChar n) = n % 10 := by
  unfold digChar
  have h : n % 10 < 10 := Nat.mod_lt _ (by norm_num)
  set k := n % 10 with hk
  interval_cases k <;> rfl

lemma numVal_append_single (l : List Char) (c : Char) :
    numVal (l ++ [c]) = numVal l * 10 + digitVal c := by
  simp [numVal, List.foldl_append]

lemma numVal_digitsFixed (w n : Nat) (h : n < 10 ^ w) :
    numVal (digitsFixed w n) = n := by
  induction w generalizing n with
  | zero =>
    have : n = 0 := by simpa using h
    simp [this, digitsFixed, numVal]
  | succ w ih =>
    have hd : n / 10 < 10 ^ w := by
      rw [Nat.div_lt_iff_lt_mul (by norm_num)]
      calc n < 10 ^ (w + 1) := h
        _ = 10 ^ w * 10 := by ring
    rw [show digitsFixed (w + 1) n = digitsFixed w (n / 10) ++ [digChar n] from rfl,
      numVal_append_single, ih _ hd, digChar_val]
    omega

lemma digitsFixed_inj (w a b : Nat) (ha : a < 10 ^ w) (hb : b < 10 ^ w)
    (h : digitsFixed w a = digitsFixed w b) : a = b := by
  rw [← numVal_digitsFixed w a ha, ← numVal_digitsFixed w b hb, h]

/-- The default scan id determines, and is determined by, the six calendar fields
down to whole seconds (for calendar-valid datetimes). -/
lemma strftimeScanId_eq_iff (t u : PyDateTime) (ht : t.valid) (hu : u.valid) :
    strftimeScanId t = strftimeScanId u ↔
      ({ t with microsecond := 0 } : PyDateTime) = { u with microsecond := 0 } := by
  obtain ⟨hy₁, hy₂, hmo₁, hmo₂, hd₁, hd₂, hh, hmi, hs, hmic⟩ := ht
  obtain ⟨gy₁, gy₂, gmo₁, gmo₂, gd₁, gd₂, gh, gmi, gs, gmic⟩ := hu
  have c4 : (10 : Nat) ^ 4 = 10000 := by norm_num
  have c2 : (10 : Nat) ^ 2 = 100 := by norm_num
  constructor
  · intro h
    unfold strftimeScanId at h
    have hl : digitsFixed 4 t.year ++ (digitsFixed 2 t.month ++ (digitsFixed 2 t.day ++
        (['_'] ++ (digitsFixed 2 t.hour ++ (digitsFixed 2 t.minute ++
          digitsFixed 2 t.second))))) =
        digitsFixed 4 u.year ++ (digitsFixed 2 u.month ++ (digitsFixed 2 u.day ++
        (['_'] ++ (digitsFixed 2 u.hour ++ (digitsFixed 2 u.minute ++
          digitsFixed 2 u.second))))) := by
      injection h
    obtain ⟨hYear, hl⟩ := List.append_inj hl (by simp [digitsFixed_length])
    obtain ⟨hMonth, hl⟩ := List.append_inj hl (by simp [digitsFixed_length])
    obtain ⟨hDay, hl⟩ := List.append_inj hl (by simp [digitsFixed_length])
    obtain ⟨-, hl⟩ := List.append_inj hl rfl
    obtain ⟨hHour, hl⟩ := List.append_inj hl (by simp [digitsFixed_length])
    obtain ⟨hMinute, hSecond⟩ := List.append_inj hl (by simp [digitsFixed_length])
    have ey := digitsFixed_inj 4 _ _ (by omega) (by omega) hYear
    have emo := digitsFixed_inj 2 _ _ (by omega) (by omega) hMonth
    have ed := digitsFixed_inj 2 _ _ (by omega) (by omega) hDay
    have eh := digitsFixed_inj 2 _ _ (by omega) (by omega) hHour
    have emi := digitsFixed_inj 2 _ _ (by omega) (by omega) hMinute
    have es := digitsFixed_inj 2 _ _ (by omega) (by omega) hSecond
    cases t
    cases u
    simp_all
  · intro h
    cases t
    cases u
    simp_all [strftimeScanId]

/-- `sampleTime` with a different microsecond field: a later instant inside the
same wall-clock second. -/
def sampleTimeLateMicro : PyDateTime :=
  { sampleTime with microsecond := 500 }

/-- Counterexample to C9: two sessions created at distinct instants of the same
wall-clock second (differing microseconds) receive the same default `scan_id`,
because `strftime("%Y%m%d_%H%M%S")` truncates to whole seconds. -/
theorem C9_counterexample_same_second_collision :
    (ScanSession.create "http://a" none sampleTime).scan_id =
        (ScanSession.create "http://b" none sampleTimeLateMicro).scan_id ∧
      sampleTime ≠ sampleTimeLateMicro := by
  refine ⟨by decide, by decide⟩

/-- C9 amended: the default `scan_id` is derived from the creation time truncated
to whole seconds, so two sessions (with any targets) receive equal scan ids
exactly when they are created in the same wall-clock second; in particular ids
are not unique within the process lifetime — sessions created within one second
collide — while sessions created in distinct seconds do get distinct ids. -/
theorem C9_scan_id_unique_only_per_second (a b : String) (t u : PyDateTime)
    (ht : t.valid) (hu : u.valid) :
    (ScanSession.create a none t).scan_id = (ScanSession.create b none u).scan_id ↔
      ({ t with microsecond := 0 } : PyDateTime) = { u with microsecond := 0 } :=
  strftimeScanId_eq_iff t u ht hu

/-- Witness for the amended C9 theorem: at two concrete valid instants one second
apart, the scan ids differ (both sides of the equivalence are false). -/
theorem C9_scan_id_unique_only_per_second_witness :
    ((ScanSession.create "http://a" none sampleTime).scan_id =
        (ScanSession.create "http://b" none sampleTime2).scan_id ↔
      ({ sampleTime with microsecond := 0 } : PyDateTime) =
        { sampleTime2 with microsecond := 0 }) :=
  C9_scan_id_unique_only_per_second "http://a" "http://b" sampleTime sampleTime2
    (by decide) (by decide)
